import Mathlib

/-!
Verification of the polysolve nonlinear solver driver
(src: polysolve/nonlinear/Solver.cpp).

Machine doubles are modelled by the type D below: a finite value carries an
exact rational, and the special values nan, +inf, -inf are explicit
constructors.  Arithmetic and comparisons follow IEEE-754 semantics on these
cases (nan propagates through arithmetic; every ordered comparison involving
nan is false; equality with nan is false).

Vectors are kept abstract: the driver only uses a vector type through the
Eigen calls norm, dot and the update x += rate * delta_x, so those three
operations are packaged in a structure VOps.  The one-dimensional instance
(vectors are single doubles, norm is abs, dot is mul) realises the exact
Euclidean semantics and is used for all concrete runs.

The objective (Problem), the virtual strategy methods and the line search are
external to Solver.cpp; they are modelled as unknown functions supplied to the
driver.  Stateful behaviour of those collaborators is captured by letting them
depend on the attempt counter, which the model increments at every loop pass.
-/

/-- Model of an IEEE double: exact rational when finite, plus nan and the two
infinities. -/
inductive D where
  | fin (q : ℚ)
  | nan
  | pinf
  | ninf
deriving DecidableEq, Repr

/-- Model of std isfinite. -/
def D.isfinite : D → Bool
  | D.fin _ => true
  | _ => false

/-- Model of std isnan. -/
def D.isnan : D → Bool
  | D.nan => true
  | _ => false

/-- IEEE negation. -/
def D.neg : D → D
  | D.fin q => D.fin (-q)
  | D.nan => D.nan
  | D.pinf => D.ninf
  | D.ninf => D.pinf

/-- IEEE addition: nan propagates, opposite infinities give nan. -/
def D.add : D → D → D
  | D.fin a, D.fin b => D.fin (a + b)
  | D.fin _, D.pinf => D.pinf
  | D.fin _, D.ninf => D.ninf
  | D.pinf, D.fin _ => D.pinf
  | D.ninf, D.fin _ => D.ninf
  | D.pinf, D.pinf => D.pinf
  | D.ninf, D.ninf => D.ninf
  | D.pinf, D.ninf => D.nan
  | D.ninf, D.pinf => D.nan
  | D.nan, _ => D.nan
  | _, D.nan => D.nan

/-- IEEE subtraction. -/
def D.sub (a b : D) : D := D.add a (D.neg b)

/-- IEEE multiplication: nan propagates, infinity times zero is nan. -/
def D.mul : D → D → D
  | D.fin a, D.fin b => D.fin (a * b)
  | D.fin a, D.pinf => if 0 < a then D.pinf else if a < 0 then D.ninf else D.nan
  | D.fin a, D.ninf => if 0 < a then D.ninf else if a < 0 then D.pinf else D.nan
  | D.pinf, D.fin b => if 0 < b then D.pinf else if b < 0 then D.ninf else D.nan
  | D.ninf, D.fin b => if 0 < b then D.ninf else if b < 0 then D.pinf else D.nan
  | D.pinf, D.pinf => D.pinf
  | D.ninf, D.ninf => D.pinf
  | D.pinf, D.ninf => D.ninf
  | D.ninf, D.pinf => D.ninf
  | D.nan, _ => D.nan
  | _, D.nan => D.nan

/-- IEEE absolute value. -/
def D.abs : D → D
  | D.fin q => D.fin |q|
  | D.nan => D.nan
  | D.pinf => D.pinf
  | D.ninf => D.pinf

/-- IEEE ordered comparison a <= b: false whenever either side is nan. -/
def D.le : D → D → Bool
  | D.fin a, D.fin b => decide (a ≤ b)
  | D.fin _, D.pinf => true
  | D.fin _, D.ninf => false
  | D.pinf, D.fin _ => false
  | D.ninf, D.fin _ => true
  | D.pinf, D.pinf => true
  | D.ninf, D.ninf => true
  | D.ninf, D.pinf => true
  | D.pinf, D.ninf => false
  | D.nan, _ => false
  | _, D.nan => false

/-- IEEE equality comparison: false whenever either side is nan. -/
def D.eq : D → D → Bool
  | D.fin a, D.fin b => decide (a = b)
  | D.pinf, D.pinf => true
  | D.ninf, D.ninf => true
  | _, _ => false

/-- Modelled from the spec: the terminal-status enum of the external cppoptlib
dependency (spec section 3); the enum itself is not under src. -/
inductive Status where
  | Continue
  | IterationLimit
  | GradNormTolerance
  | XDeltaTolerance
  | FDeltaTolerance
  | UserDefined
deriving DecidableEq, Repr

/-- Modelled from the spec: the ErrorCode enum (spec section 3); the header
declaring it is not under src. -/
inductive ErrorCode where
  | Success
  | NaNEncountered
  | LineSearchFailed
  | NotDescentDirection
deriving DecidableEq, Repr

/-- Modelled from the spec: the cppoptlib criteria record (spec section 3),
shared by the current values and the stop thresholds. -/
structure Criteria where
  iterations : ℕ
  xDelta : D
  fDelta : D
  gradNorm : D
  condition : D
deriving DecidableEq, Repr

/-- Modelled from the spec: cppoptlib criteria reset, called at the start of
minimize; every field is cleared and the iteration counter starts at zero. -/
def Criteria.resetC : Criteria :=
  { iterations := 0, xDelta := D.fin 0, fDelta := D.fin 0,
    gradNorm := D.fin 0, condition := D.fin 0 }

/-- Modelled from the spec: cppoptlib checkConvergence (spec section 4.2).
Order of tests: iteration limit, then fDelta, then xDelta, then gradNorm.
Unset current values are nan and never compare below a threshold. -/
def checkConvergence (stop current : Criteria) : Status :=
  if current.iterations ≥ stop.iterations then Status.IterationLimit
  else if D.le current.fDelta stop.fDelta then Status.FDeltaTolerance
  else if D.le current.xDelta stop.xDelta then Status.XDeltaTolerance
  else if D.le current.gradNorm stop.gradNorm then Status.GradNormTolerance
  else Status.Continue

/-- Timing buckets owned by the solver (Solver.cpp lines 337-350).  Wall-clock
measurement is outside the model, so the buckets are abstract inputs held
fixed across a run. -/
structure Times where
  total_time : ℚ
  grad_time : ℚ
  assembly_time : ℚ
  inverting_time : ℚ
  line_search_time : ℚ
  obj_fun_time : ℚ
  constraint_set_update_time : ℚ
deriving DecidableEq, Repr

/-- Timing buckets owned by the line search object, read by
update_solver_info (Solver.cpp lines 374-390). -/
structure LSTimes where
  iterations : ℕ
  checking_for_nan_inf_time : ℚ
  broad_phase_ccd_time : ℚ
  ccd_time : ℚ
  classical_line_search_time : ℚ
  constraint_set_update_time : ℚ
deriving DecidableEq, Repr

/-- One snapshot written by Solver update_solver_info (Solver.cpp lines
352-391): the keys of the solver_info json document. -/
structure SolverInfo where
  status : Status
  error_code : ErrorCode
  energy : D
  iterations : ℕ
  xDelta : D
  fDelta : D
  gradNorm : D
  condition : D
  total_time : ℚ
  time_grad : ℚ
  time_assembly : ℚ
  time_inverting : ℚ
  time_line_search : ℚ
  time_constraint_set_update : ℚ
  time_obj_fun : ℚ
  line_search_iterations : ℕ
  time_checking_for_nan_inf : ℚ
  time_broad_phase_ccd : ℚ
  time_ccd : ℚ
  time_classical_line_search : ℚ
  time_line_search_constraint_set_update : ℚ
deriving DecidableEq, Repr

/-- Translation of Solver update_solver_info (Solver.cpp lines 352-391).  The
divisor is crit.iterations when nonzero, else one; the classical line search
time subtracts the line-search constraint-set-update time before dividing. -/
def update_solver_info (status : Status) (error_code : ErrorCode)
    (crit : Criteria) (t : Times) (ls : LSTimes) (energy : D) : SolverInfo :=
  let per : ℚ := if crit.iterations ≠ 0 then (crit.iterations : ℚ) else 1
  { status := status
    error_code := error_code
    energy := energy
    iterations := crit.iterations
    xDelta := crit.xDelta
    fDelta := crit.fDelta
    gradNorm := crit.gradNorm
    condition := crit.condition
    total_time := t.total_time
    time_grad := t.grad_time / per
    time_assembly := t.assembly_time / per
    time_inverting := t.inverting_time / per
    time_line_search := t.line_search_time / per
    time_constraint_set_update := t.constraint_set_update_time / per
    time_obj_fun := t.obj_fun_time / per
    line_search_iterations := ls.iterations
    time_checking_for_nan_inf := ls.checking_for_nan_inf_time / per
    time_broad_phase_ccd := ls.broad_phase_ccd_time / per
    time_ccd := ls.ccd_time / per
    time_classical_line_search :=
      (ls.classical_line_search_time - ls.constraint_set_update_time) / per
    time_line_search_constraint_set_update :=
      ls.constraint_set_update_time / per }

/-- The dense vector operations the driver uses through Eigen: norm, dot
and the in-place update x += rate * delta_x.  Eigen is an external
dependency of the driver, so the operations are abstract here. -/
structure VOps (V : Type) where
  norm : V → D
  dot : V → V → D
  axpy : D → V → V → V

/-- The one-dimensional instance: a vector is a single double, its Euclidean
norm is the absolute value, the dot product is multiplication and
axpy r d x is x + r * d.  This realises the exact Eigen semantics in
dimension one and is used for all concrete runs. -/
def oneD : VOps D :=
  { norm := D.abs, dot := D.mul, axpy := fun r d x => D.add x (D.mul r d) }

/-- The external objective consumed by the driver (spec section 4.1): value,
gradient, the stop hook and the per-iteration callback.  The hooks
solution_changed, post_step and save_to_file do not influence the driver
state modelled here. -/
structure Problem (V : Type) where
  value : V → D
  gradient : V → V
  stop : V → Bool
  callback : Criteria → V → Bool

/-- The virtual methods of the concrete solver subclass plus the line search
object, as the driver sees them (spec sections 4.3 and 4.4).  Internal
mutable state of the strategy and line search is captured by the attempt
counter argument, which the driver increments on every loop pass. -/
structure Strategy (V : Type) where
  default_level : ℕ
  increase : ℕ → ℕ
  is_direction_descent : ℕ → Bool
  compute_update_direction : ℕ → ℕ → V → V → V
  line_search : ℕ → V → V → D

/-- The driver state for one call of Solver minimize: the iterate x, the
local old_energy, the cppoptlib status, the polysolve error code, the
current and stop criteria, the saved g_norm_tol local (Solver.cpp line
146), the descent_strategy level, the timing buckets and the list of
solver_info snapshots written so far.  committed is a ghost flag, cleared
at the top of every loop body and set exactly by the commit statement
x += rate * delta_x (Solver.cpp line 266); it lets theorems speak about
the commit path.  attempt counts loop passes and feeds the external
oracles. -/
structure State (V : Type) where
  x : V
  old_energy : D
  status : Status
  error_code : ErrorCode
  current : Criteria
  m_stop : Criteria
  g_norm_tol : D
  descent_strategy : ℕ
  attempt : ℕ
  committed : Bool
  times : Times
  ls_times : LSTimes
  info_trace : List SolverInfo
deriving DecidableEq, Repr

/-- How one pass of the do-while body ends: a break statement, reaching the
loop condition (fall-through or a continue statement), or a thrown fatal
error from log_and_throw_error. -/
inductive Tag where
  | broke
  | looped
  | threwNanEnergy
  | threwNanGrad
  | threwLineSearch
deriving DecidableEq, Repr

/-- The fatal errors Solver minimize can throw, identified by their
log_and_throw_error call sites (Solver.cpp lines 179, 200, 262, 309, 311). -/
inductive Err where
  | NanEnergy
  | NanGrad
  | LineSearchFailedGD
  | IterationLimitExceeded
  | FailedToFindMinimizer
deriving DecidableEq, Repr

/-- Result of a minimize call: normal return, a thrown fatal error, or fuel
exhaustion (the C++ loop has no intrinsic bound, so the model is indexed by
fuel). -/
inductive Outcome (V : Type) where
  | done (s : State V)
  | thrown (e : Err) (s : State V)
  | outOfFuel (s : State V)
deriving Repr

/-- Final state carried by an outcome. -/
def Outcome.st {V : Type} : Outcome V → State V
  | Outcome.done s => s
  | Outcome.thrown _ s => s
  | Outcome.outOfFuel s => s

/-- The thrown error of an outcome, if any. -/
def Outcome.errOf {V : Type} : Outcome V → Option Err
  | Outcome.thrown e _ => some e
  | _ => none

/-- Translation of Solver compute_grad_norm (Solver.cpp lines 114-117): the
Euclidean norm of the gradient; the point x is ignored. -/
def compute_grad_norm {V : Type} (ops : VOps V) (x : V) (grad : V) : D :=
  ops.norm grad

/-- One call of update_solver_info from inside minimize (Solver.cpp lines
160, 293, 320): the snapshot is built from the current status, error code,
current criteria and timing buckets, plus the energy argument. -/
def mkInfo {V : Type} (s : State V) (energy : D) : SolverInfo :=
  update_solver_info s.status s.error_code s.current s.times s.ls_times energy

/-- The reset of the current criteria record at the top of the loop body
(Solver.cpp lines 164-166): xDelta, fDelta and gradNorm are set to nan to
mark them not yet computed; the iteration counter and condition stay. -/
def curReset (c : Criteria) : Criteria :=
  { c with xDelta := D.nan, fDelta := D.nan, gradNorm := D.nan }

/-- The energy computed by a loop pass entered at state s (Solver.cpp line
172): the objective value at the current x. -/
def energyAt {V : Type} (prob : Problem V) (s : State V) : D :=
  prob.value s.x

/-- The current criteria after the fDelta update (Solver.cpp line 183):
fDelta is the absolute difference of old_energy and the new energy; xDelta
and gradNorm are still nan. -/
def cur1 {V : Type} (prob : Problem V) (s : State V) : Criteria :=
  { curReset s.current with
      fDelta := D.abs (D.sub s.old_energy (energyAt prob s)) }

/-- The gradient computed by a loop pass entered at state s (Solver.cpp line
192). -/
def gradAt {V : Type} (prob : Problem V) (s : State V) : V :=
  prob.gradient s.x

/-- The gradient norm of a loop pass (Solver.cpp line 195), through
compute_grad_norm. -/
def gradNormAt {V : Type} (ops : VOps V) (prob : Problem V) (s : State V) : D :=
  compute_grad_norm ops s.x (gradAt prob s)

/-- The current criteria after the gradNorm update (Solver.cpp line 203). -/
def cur2 {V : Type} (ops : VOps V) (prob : Problem V) (s : State V) : Criteria :=
  { cur1 prob s with gradNorm := gradNormAt ops prob s }

/-- The update direction proposed by the strategy for a loop pass entered at
state s (Solver.cpp line 213). -/
def dirAt {V : Type} (prob : Problem V) (strat : Strategy V) (s : State V) : V :=
  strat.compute_update_direction s.attempt s.descent_strategy s.x (gradAt prob s)

/-- The descent-direction validation test (Solver.cpp line 215): the strategy
claims a descent direction, the gradient norm is not zero, and the dot
product of delta_x with the gradient is at least zero. -/
def badDirCond {V : Type} (ops : VOps V) (prob : Problem V) (strat : Strategy V)
    (s : State V) : Bool :=
  strat.is_direction_descent s.descent_strategy
    && !(D.eq (gradNormAt ops prob s) (D.fin 0))
    && D.le (D.fin 0) (ops.dot (dirAt prob strat s) (gradAt prob s))

/-- The current criteria after the xDelta update (Solver.cpp line 236):
xDelta is nan when the strategy level is two (gradient descent), else the
norm of delta_x. -/
def cur3 {V : Type} (ops : VOps V) (prob : Problem V) (strat : Strategy V)
    (s : State V) : Criteria :=
  { cur2 ops prob s with
      xDelta := if s.descent_strategy = 2 then D.nan
                else ops.norm (dirAt prob strat s) }

/-- The step scale returned by the line search for a loop pass entered at
state s (Solver.cpp line 246). -/
def rateAt {V : Type} (prob : Problem V) (strat : Strategy V) (s : State V) : D :=
  strat.line_search s.attempt s.x (dirAt prob strat s)

/-- Outcome state of the loop body when the energy is nan or infinite
(Solver.cpp lines 175-181): status UserDefined, error NaNEncountered, the
current criteria still in their reset state and old_energy not yet
overwritten; the call throws. -/
def nanEnergyState {V : Type} (s : State V) : State V :=
  { s with committed := false, current := curReset s.current,
           status := Status.UserDefined, error_code := ErrorCode.NaNEncountered }

/-- Outcome state of the loop body when a convergence check fires and the
body breaks out (Solver.cpp lines 185-187, 204-206, 237-239): the current
criteria are c, the status is the check result. -/
def brokeState {V : Type} (prob : Problem V) (s : State V) (c : Criteria) :
    State V :=
  { s with committed := false, old_energy := energyAt prob s, current := c,
           status := checkConvergence s.m_stop c }

/-- Outcome state of the loop body when the gradient norm is nan (Solver.cpp
lines 196-202): status UserDefined, error NaNEncountered; the call
throws. -/
def nanGradState {V : Type} (prob : Problem V) (s : State V) : State V :=
  { s with committed := false, old_energy := energyAt prob s,
           current := cur1 prob s, status := Status.UserDefined,
           error_code := ErrorCode.NaNEncountered }

/-- Outcome state of a retry pass (Solver.cpp lines 215-223, 225-233,
251-257): the strategy level is raised by increase_descent_strategy, the
status is Continue, x and the iteration counter are untouched; c is how far
the current criteria got before the retry. -/
def retryState {V : Type} (prob : Problem V) (strat : Strategy V) (s : State V)
    (c : Criteria) : State V :=
  { s with committed := false, old_energy := energyAt prob s, current := c,
           status := Status.Continue,
           descent_strategy := strat.increase s.descent_strategy,
           attempt := s.attempt + 1 }

/-- Outcome state of the loop body when the line search fails at strategy
level two (Solver.cpp lines 258-263): the status becomes UserDefined and
the call throws; note the source assigns no error code here, so the error
code keeps its previous value. -/
def lsFailState {V : Type} (ops : VOps V) (prob : Problem V)
    (strat : Strategy V) (s : State V) : State V :=
  { s with committed := false, old_energy := energyAt prob s,
           current := cur3 ops prob strat s, status := Status.UserDefined }

/-- The committed x of a successful pass: x += rate * delta_x (Solver.cpp
line 266). -/
def commitX {V : Type} (ops : VOps V) (prob : Problem V) (strat : Strategy V)
    (s : State V) : V :=
  ops.axpy (rateAt prob strat s) (dirAt prob strat s) s.x

/-- The current criteria after the iteration increment of a commit
(Solver.cpp line 290). -/
def commitCriteria {V : Type} (ops : VOps V) (prob : Problem V)
    (strat : Strategy V) (s : State V) : Criteria :=
  { cur3 ops prob strat s with iterations := s.current.iterations + 1 }

/-- The status after a commit: IterationLimit when the incremented counter
reaches the cap (Solver.cpp lines 290-291), which overrides the
UserDefined written by the stop hook (lines 276-281); otherwise
UserDefined when the objective requested a stop; otherwise Continue. -/
def commitStatus {V : Type} (ops : VOps V) (prob : Problem V)
    (strat : Strategy V) (s : State V) : Status :=
  if (commitCriteria ops prob strat s).iterations ≥ s.m_stop.iterations
  then Status.IterationLimit
  else if prob.stop (commitX ops prob strat s) then Status.UserDefined
  else Status.Continue

/-- The error code after a commit: Success is written by the stop hook
(Solver.cpp line 279), otherwise the previous value is kept. -/
def commitError {V : Type} (ops : VOps V) (prob : Problem V)
    (strat : Strategy V) (s : State V) : ErrorCode :=
  if prob.stop (commitX ops prob strat s) then ErrorCode.Success
  else s.error_code

/-- Outcome state of a committed pass (Solver.cpp lines 266-298): x is
updated, the strategy level is reset to its default (line 272), the
iteration counter is incremented (line 290), a solver_info snapshot is
appended with this pass energy (line 293), and the gradNorm stop is
restored from the saved g_norm_tol (lines 297-298). -/
def commitState {V : Type} (ops : VOps V) (prob : Problem V)
    (strat : Strategy V) (s : State V) : State V :=
  { s with committed := true, old_energy := energyAt prob s,
           x := commitX ops prob strat s,
           descent_strategy := strat.default_level,
           status := commitStatus ops prob strat s,
           error_code := commitError ops prob strat s,
           current := commitCriteria ops prob strat s,
           info_trace := s.info_trace
             ++ [update_solver_info (commitStatus ops prob strat s)
                   (commitError ops prob strat s)
                   (commitCriteria ops prob strat s) s.times s.ls_times
                   (energyAt prob s)],
           m_stop := { s.m_stop with gradNorm := s.g_norm_tol },
           attempt := s.attempt + 1 }

/-- Translation of one pass of the do-while body of Solver minimize
(Solver.cpp lines 162-300).  The branch structure follows the source in
order: nan or infinite energy throws; fDelta convergence check; nan
gradient norm throws; gradNorm convergence check; descent-direction
validation retry; nan delta_x retry; xDelta convergence check; line-search
failure (retry below level two, throw at level two); otherwise commit.
Each branch ends in one of the named outcome states above; the stage
values cur1, cur2, cur3, gradNormAt, dirAt, rateAt are all functions of
the entry state s because the source mutates none of their inputs before
reading them. -/
def runBody {V : Type} (ops : VOps V) (prob : Problem V) (strat : Strategy V)
    (s : State V) : Tag × State V :=
  if D.isfinite (energyAt prob s) then
    if checkConvergence s.m_stop (cur1 prob s) = Status.Continue then
      if D.isnan (gradNormAt ops prob s) then
        (Tag.threwNanGrad, nanGradState prob s)
      else
        if checkConvergence s.m_stop (cur2 ops prob s) = Status.Continue then
          if badDirCond ops prob strat s then
            (Tag.looped, retryState prob strat s (cur2 ops prob s))
          else
            if D.isnan (ops.norm (dirAt prob strat s)) then
              (Tag.looped, retryState prob strat s (cur2 ops prob s))
            else
              if checkConvergence s.m_stop (cur3 ops prob strat s) = Status.Continue then
                if D.isnan (rateAt prob strat s) then
                  if s.descent_strategy < 2 then
                    (Tag.looped, retryState prob strat s (cur3 ops prob strat s))
                  else
                    (Tag.threwLineSearch, lsFailState ops prob strat s)
                else
                  (Tag.looped, commitState ops prob strat s)
              else
                (Tag.broke, brokeState prob s (cur3 ops prob strat s))
        else
          (Tag.broke, brokeState prob s (cur2 ops prob s))
    else
      (Tag.broke, brokeState prob s (cur1 prob s))
  else
    (Tag.threwNanEnergy, nanEnergyState s)

/-- Translation of the code after the loop (Solver.cpp lines 302-321): throw
on a disallowed iteration limit (308-309), throw on a UserDefined status
with a non-Success error code (310-311), otherwise log and write the final
solver_info snapshot (320) and return normally. -/
def epilogue {V : Type} (prob : Problem V) (allow_out_of_iterations : Bool)
    (s : State V) : Outcome V :=
  if allow_out_of_iterations = false ∧ s.status = Status.IterationLimit then
    Outcome.thrown Err.IterationLimitExceeded s
  else if s.status = Status.UserDefined ∧ s.error_code ≠ ErrorCode.Success then
    Outcome.thrown Err.FailedToFindMinimizer s
  else
    Outcome.done { s with
      info_trace := s.info_trace ++ [mkInfo s (prob.value s.x)] }

/-- The do-while loop of Solver minimize (lines 162-300 with the condition at
line 300), indexed by fuel: after a pass that reaches the condition, the
loop repeats exactly when the callback returns true and the status is
Continue; a break leaves to the epilogue; a throw aborts the call. -/
def loop {V : Type} (ops : VOps V) (prob : Problem V) (strat : Strategy V)
    (allow_out_of_iterations : Bool) : ℕ → State V → Outcome V
  | 0, s => Outcome.outOfFuel s
  | Nat.succ fuel, s =>
    match runBody ops prob strat s with
    | (Tag.broke, s2) => epilogue prob allow_out_of_iterations s2
    | (Tag.looped, s2) =>
        if prob.callback s2.current s2.x = true ∧ s2.status = Status.Continue
        then loop ops prob strat allow_out_of_iterations fuel s2
        else epilogue prob allow_out_of_iterations s2
    | (Tag.threwNanEnergy, s2) => Outcome.thrown Err.NanEnergy s2
    | (Tag.threwNanGrad, s2) => Outcome.thrown Err.NanGrad s2
    | (Tag.threwLineSearch, s2) => Outcome.thrown Err.LineSearchFailedGD s2

/-- The configuration values the Solver constructor reads from the validated
json document (Solver.cpp lines 86-112). -/
structure Params where
  x_delta : D
  f_delta : D
  grad_norm : D
  max_iterations : ℕ
  use_grad_norm_tol : D
  first_grad_norm_tol : D

/-- The fields the Solver constructor initialises. -/
structure SolverFields where
  m_stop : Criteria
  use_grad_norm_tol : D
  first_grad_norm_tol : D
  characteristic_length : D

/-- Modelled from the spec: cppoptlib TCriteria defaults (the header is not
under src).  Every field except condition is overwritten by the
constructor, so only condition can matter downstream. -/
def TCriteria.defaults : Criteria :=
  { iterations := 10000, xDelta := D.fin 0, fDelta := D.fin 0,
    gradNorm := D.fin 0, condition := D.fin 0 }

/-- Translation of the Solver constructor (Solver.cpp lines 86-112): read the
three stop thresholds, multiply each once by characteristic_length, read
max_iterations unscaled, then read use_grad_norm_tol and
first_grad_norm_tol and multiply each once by characteristic_length. -/
def Solver.construct (p : Params) (characteristic_length : D) : SolverFields :=
  let c1 := { TCriteria.defaults with xDelta := p.x_delta, fDelta := p.f_delta,
                                      gradNorm := p.grad_norm }
  let c2 := { c1 with xDelta := D.mul c1.xDelta characteristic_length,
                      fDelta := D.mul c1.fDelta characteristic_length,
                      gradNorm := D.mul c1.gradNorm characteristic_length }
  let c3 := { c2 with iterations := p.max_iterations }
  { m_stop := c3,
    use_grad_norm_tol := D.mul p.use_grad_norm_tol characteristic_length,
    first_grad_norm_tol := D.mul p.first_grad_norm_tol characteristic_length,
    characteristic_length := characteristic_length }

/-- The state right before the loop of Solver minimize (lines 125-160):
reset clears the current criteria, the error code and the strategy level
(lines 323-335); old_energy starts at nan (line 140); the configured
gradNorm stop is saved into the local g_norm_tol and replaced by
first_grad_norm_tol (lines 146-147); the initial solver_info snapshot is
written with the energy at the start point (line 160). -/
def initState {V : Type} (p : Params) (characteristic_length : D)
    (prob : Problem V) (strat : Strategy V) (t : Times) (lt : LSTimes)
    (x0 : V) : State V :=
  let f := Solver.construct p characteristic_length
  let sPre : State V :=
    { x := x0, old_energy := D.nan, status := Status.Continue,
      error_code := ErrorCode.Success, current := Criteria.resetC,
      m_stop := { f.m_stop with gradNorm := f.first_grad_norm_tol },
      g_norm_tol := f.m_stop.gradNorm,
      descent_strategy := strat.default_level,
      attempt := 0, committed := false, times := t, ls_times := lt,
      info_trace := [] }
  { sPre with info_trace := [mkInfo sPre (prob.value x0)] }

/-- Translation of Solver minimize (Solver.cpp lines 125-321): initialise,
then run the loop on the initial state. -/
def minimize {V : Type} (ops : VOps V) (p : Params) (characteristic_length : D)
    (allow_out_of_iterations : Bool) (prob : Problem V) (strat : Strategy V)
    (t : Times) (lt : LSTimes) (x0 : V) (fuel : ℕ) : Outcome V :=
  loop ops prob strat allow_out_of_iterations fuel
    (initState p characteristic_length prob strat t lt x0)

/-- Zero solver timing buckets, used by the concrete runs. -/
def zeroTimes : Times :=
  { total_time := 0, grad_time := 0, assembly_time := 0, inverting_time := 0,
    line_search_time := 0, obj_fun_time := 0, constraint_set_update_time := 0 }

/-- Zero line-search timing buckets, used by the concrete runs. -/
def zeroLSTimes : LSTimes :=
  { iterations := 0, checking_for_nan_inf_time := 0, broad_phase_ccd_time := 0,
    ccd_time := 0, classical_line_search_time := 0,
    constraint_set_update_time := 0 }

/-- A plain strategy for concrete runs: native level zero, fallback raises the
level toward two, the direction is the constant one and the line search
always succeeds with step one. -/
def plainStrat : Strategy D :=
  { default_level := 0, increase := fun l => min (l + 1) 2,
    is_direction_descent := fun _ => false,
    compute_update_direction := fun _ _ _ _ => D.fin 1,
    line_search := fun _ _ _ => D.fin 1 }

/-- Objective whose gradient is plus infinity everywhere: finite value, no
stop request, callback always true. -/
def infGradProb : Problem D :=
  { value := fun _ => D.fin 1, gradient := fun _ => D.pinf,
    stop := fun _ => false, callback := fun _ _ => true }

/-- Objective with a well-behaved value and gradient, no stop request,
callback always true. -/
def plainProb : Problem D :=
  { value := fun _ => D.fin 1, gradient := fun _ => D.fin 2,
    stop := fun _ => false, callback := fun _ _ => true }

/-- Same objective as plainProb but the callback always answers false. -/
def cbFalseProb : Problem D :=
  { value := fun _ => D.fin 1, gradient := fun _ => D.fin 2,
    stop := fun _ => false, callback := fun _ _ => false }

/-- Objective whose value is nan everywhere. -/
def nanValueProb : Problem D :=
  { value := fun _ => D.nan, gradient := fun _ => D.fin 2,
    stop := fun _ => false, callback := fun _ _ => true }

/-- Strategy pinned at the gradient-descent level whose line search always
fails. -/
def gdFailStrat : Strategy D :=
  { default_level := 2, increase := fun l => min (l + 1) 2,
    is_direction_descent := fun _ => false,
    compute_update_direction := fun _ _ _ _ => D.fin 1,
    line_search := fun _ _ _ => D.nan }

/-- Strategy that proposes the gradient itself as update direction, so the
direction check sees dot product grad * grad at least zero. -/
def badDirStrat : Strategy D :=
  { default_level := 0, increase := fun l => min (l + 1) 2,
    is_direction_descent := fun _ => true,
    compute_update_direction := fun _ _ _ g => g,
    line_search := fun _ _ _ => D.fin 1 }


/-- Configuration whose thresholds are all nan (an admissible double value)
with a given iteration cap.  Convenient for concrete runs: no comparison
against a nan threshold ever fires, so a run exercises the full loop. -/
def nanParams (max_iterations : ℕ) : Params :=
  { x_delta := D.nan, f_delta := D.nan, grad_norm := D.nan,
    max_iterations := max_iterations, use_grad_norm_tol := D.nan,
    first_grad_norm_tol := D.nan }

/-- Objective with finite value and nan gradient everywhere. -/
def nanGradProb : Problem D :=
  { value := fun _ => D.fin 1, gradient := fun _ => D.nan,
    stop := fun _ => false, callback := fun _ _ => true }

/-- Entry state of minimize for the one-dimensional runs: nan thresholds with
the given iteration cap, characteristic length one, zero timing buckets
and start point x0. -/
def st0 (prob : Problem D) (strat : Strategy D) (cap : ℕ) (x0 : D) : State D :=
  initState (nanParams cap) (D.fin 1) prob strat zeroTimes zeroLSTimes x0

/-- Run with an everywhere-infinite gradient: one commit is allowed and the
iteration limit is reached with allow_out_of_iterations set. -/
def cex2run : Outcome D :=
  minimize oneD (nanParams 1) (D.fin 1) true infGradProb plainStrat
    zeroTimes zeroLSTimes (D.fin 0) 3

/-- Run on the gradient-descent-pinned strategy whose line search always
fails. -/
def cex1run : Outcome D :=
  minimize oneD (nanParams 10) (D.fin 1) true plainProb gdFailStrat
    zeroTimes zeroLSTimes (D.fin 0) 3

/-- Run whose callback always answers false while the iteration cap is one
and out-of-iterations is not allowed. -/
def cex7run : Outcome D :=
  minimize oneD (nanParams 1) (D.fin 1) false cbFalseProb plainStrat
    zeroTimes zeroLSTimes (D.fin 0) 3

/-- Run whose objective value is nan at the start point. -/
def cex9run : Outcome D :=
  minimize oneD (nanParams 10) (D.fin 1) true nanValueProb plainStrat
    zeroTimes zeroLSTimes (D.fin 0) 3

/-- Entry state for the C1 witness: gradient-descent-pinned strategy with a
failing line search. -/
def w1s : State D := st0 plainProb gdFailStrat 10 (D.fin 3)

/-- Entry state for the C2 witness: nan gradient. -/
def w2s : State D := st0 nanGradProb plainStrat 10 (D.fin 0)

/-- Entry state for the C3 witness: the strategy claims a descent direction
but proposes the gradient itself, giving a nonnegative dot product. -/
def w3s : State D := st0 infGradProb badDirStrat 10 (D.fin 0)

/-- Entry state for the C6 witness: same shape as the C3 scenario at another
start point and cap. -/
def w6s : State D := st0 infGradProb badDirStrat 7 (D.fin 5)

/-- Entry state for the C7 witness: callback answers false, cap not yet
reached. -/
def w7s : State D := st0 cbFalseProb plainStrat 5 (D.fin 0)

/-- Entry state for the C9 witness: nan objective value. -/
def w9s : State D := st0 nanValueProb plainStrat 10 (D.fin 2)

/-- Entry state for the C10 witness: a pass that throws in the line search,
so it does not commit. -/
def w10s : State D := st0 plainProb gdFailStrat 10 (D.fin 4)

/-- C5: at construction each stop threshold xDelta, fDelta, gradNorm, as well
as use_grad_norm_tol and first_grad_norm_tol, equals the configured value
multiplied exactly once by characteristic_length, and max_iterations is
stored unscaled (Solver.cpp lines 86-112). -/
theorem C5_threshold_scaling (p : Params) (clen : D) :
    (Solver.construct p clen).m_stop.xDelta = D.mul p.x_delta clen ∧
    (Solver.construct p clen).m_stop.fDelta = D.mul p.f_delta clen ∧
    (Solver.construct p clen).m_stop.gradNorm = D.mul p.grad_norm clen ∧
    (Solver.construct p clen).use_grad_norm_tol = D.mul p.use_grad_norm_tol clen ∧
    (Solver.construct p clen).first_grad_norm_tol = D.mul p.first_grad_norm_tol clen ∧
    (Solver.construct p clen).m_stop.iterations = p.max_iterations :=
  ⟨rfl, rfl, rfl, rfl, rfl, rfl⟩

/-- The divisor written as crit.iterations-if-nonzero-else-one equals
max iterations 1. -/
theorem per_iteration_eq_max (n : ℕ) :
    (if n ≠ 0 then (n : ℚ) else 1) = ((max n 1 : ℕ) : ℚ) := by
  cases n with
  | zero => simp
  | succ m =>
      have h1 : max (m + 1) 1 = m + 1 := Nat.max_eq_left (Nat.succ_le_succ (Nat.zero_le m))
      simp [h1]

/-- C8: every per-iteration-averaged timing entry of update_solver_info uses
max(iterations, 1) as divisor, and time_classical_line_search is the
classical line-search time minus the line-search constraint-set-update
time, divided by that same divisor (Solver.cpp lines 352-391). -/
theorem C8_timing_averages (st : Status) (ec : ErrorCode) (crit : Criteria)
    (t : Times) (ls : LSTimes) (e : D) :
    (update_solver_info st ec crit t ls e).time_grad
        = t.grad_time / ((max crit.iterations 1 : ℕ) : ℚ) ∧
    (update_solver_info st ec crit t ls e).time_assembly
        = t.assembly_time / ((max crit.iterations 1 : ℕ) : ℚ) ∧
    (update_solver_info st ec crit t ls e).time_inverting
        = t.inverting_time / ((max crit.iterations 1 : ℕ) : ℚ) ∧
    (update_solver_info st ec crit t ls e).time_line_search
        = t.line_search_time / ((max crit.iterations 1 : ℕ) : ℚ) ∧
    (update_solver_info st ec crit t ls e).time_constraint_set_update
        = t.constraint_set_update_time / ((max crit.iterations 1 : ℕ) : ℚ) ∧
    (update_solver_info st ec crit t ls e).time_obj_fun
        = t.obj_fun_time / ((max crit.iterations 1 : ℕ) : ℚ) ∧
    (update_solver_info st ec crit t ls e).time_checking_for_nan_inf
        = ls.checking_for_nan_inf_time / ((max crit.iterations 1 : ℕ) : ℚ) ∧
    (update_solver_info st ec crit t ls e).time_broad_phase_ccd
        = ls.broad_phase_ccd_time / ((max crit.iterations 1 : ℕ) : ℚ) ∧
    (update_solver_info st ec crit t ls e).time_ccd
        = ls.ccd_time / ((max crit.iterations 1 : ℕ) : ℚ) ∧
    (update_solver_info st ec crit t ls e).time_line_search_constraint_set_update
        = ls.constraint_set_update_time / ((max crit.iterations 1 : ℕ) : ℚ) ∧
    (update_solver_info st ec crit t ls e).time_classical_line_search
        = (ls.classical_line_search_time - ls.constraint_set_update_time)
            / ((max crit.iterations 1 : ℕ) : ℚ) := by
  have h := per_iteration_eq_max crit.iterations
  refine ⟨?_, ?_, ?_, ?_, ?_, ?_, ?_, ?_, ?_, ?_, ?_⟩ <;>
    simp only [update_solver_info, h]

set_option maxHeartbeats 1000000 in
/-- C10: within one pass of the minimize loop body, x changes only at the
commit statement x += rate * delta_x, which runs only after a line search
that returned a non-nan rate; every non-commit outcome of a pass (break,
retry, throw) leaves x exactly as it was, and the epilogue after the loop
never changes x, so a fatal termination keeps the x of the last commit. -/
theorem C10_commit_only_mutation {V : Type} (ops : VOps V) (prob : Problem V)
    (strat : Strategy V) (allow : Bool) (s : State V) :
    ((runBody ops prob strat s).2.committed = false →
        (runBody ops prob strat s).2.x = s.x) ∧
    ((runBody ops prob strat s).2.committed = true →
        ∃ rate dx, D.isnan rate = false ∧
          (runBody ops prob strat s).2.x = ops.axpy rate dx s.x) ∧
    (epilogue prob allow s).st.x = s.x := by
  refine ⟨?_, ?_, ?_⟩
  · unfold runBody
    repeat' split
    all_goals intro h
    all_goals first
      | rfl
      | exact Bool.noConfusion h
  · unfold runBody
    repeat' split
    all_goals intro h
    all_goals first
      | exact ⟨rateAt prob strat s, dirAt prob strat s, by simp_all, rfl⟩
      | exact Bool.noConfusion h
  · unfold epilogue
    repeat' split
    all_goals rfl

set_option maxHeartbeats 1000000 in
/-- C4: at the start of minimize the active gradNorm stop threshold is
first_grad_norm_tol times characteristic_length while the configured
grad_norm times characteristic_length is saved in g_norm_tol (Solver.cpp
lines 146-147); a loop pass never changes g_norm_tol, and it rewrites the
active gradNorm stop exactly on commit, to the saved g_norm_tol (lines
297-298); the epilogue never touches the stop criteria.  Hence iteration 0
runs against the first tolerance and every later point of the call runs
against the configured one. -/
theorem C4_first_iteration_tolerance {V : Type} (ops : VOps V) (p : Params)
    (clen : D) (allow : Bool) (prob : Problem V) (strat : Strategy V)
    (t : Times) (lt : LSTimes) (x0 : V) (s : State V) :
    (initState p clen prob strat t lt x0).m_stop.gradNorm
        = D.mul p.first_grad_norm_tol clen ∧
    (initState p clen prob strat t lt x0).g_norm_tol
        = D.mul p.grad_norm clen ∧
    (runBody ops prob strat s).2.g_norm_tol = s.g_norm_tol ∧
    ((runBody ops prob strat s).2.m_stop.gradNorm =
        if (runBody ops prob strat s).2.committed = true then s.g_norm_tol
        else s.m_stop.gradNorm) ∧
    (epilogue prob allow s).st.m_stop = s.m_stop := by
  refine ⟨rfl, rfl, ?_, ?_, ?_⟩
  · unfold runBody
    repeat' split
    all_goals rfl
  · unfold runBody
    repeat' split
    all_goals first
      | rfl
      | (rename_i h; exact Bool.noConfusion h)
      | (rename_i h; exact absurd rfl h)
  · unfold epilogue
    repeat' split
    all_goals rfl

set_option maxHeartbeats 1000000 in
/-- C3: when a loop pass reaches the descent-direction validation (finite
energy, both earlier convergence checks answer Continue, gradient norm not
nan) and the validation fires (the strategy claims a descent direction,
the gradient norm is nonzero and the dot product of delta_x and the
gradient is at least zero, Solver.cpp line 215), the pass ends in a retry:
the strategy level is raised by increase_descent_strategy, x is untouched,
the iteration counter is untouched and the status stays Continue, so the
same iteration is attempted again (lines 215-223).  Moreover, on any pass
whatsoever the iteration counter is incremented exactly when the pass
commits, so no retry path (non-descent direction, nan delta_x, failed line
search below level two) ever advances it (line 290). -/
theorem C3_descent_validation_retry {V : Type} (ops : VOps V)
    (prob : Problem V) (strat : Strategy V) (s : State V)
    (hE : D.isfinite (energyAt prob s) = true)
    (hC1 : checkConvergence s.m_stop (cur1 prob s) = Status.Continue)
    (hG : D.isnan (gradNormAt ops prob s) = false)
    (hC2 : checkConvergence s.m_stop (cur2 ops prob s) = Status.Continue)
    (hD : badDirCond ops prob strat s = true) :
    runBody ops prob strat s
        = (Tag.looped, retryState prob strat s (cur2 ops prob s)) ∧
    (retryState prob strat s (cur2 ops prob s)).x = s.x ∧
    (retryState prob strat s (cur2 ops prob s)).current.iterations
        = s.current.iterations ∧
    (retryState prob strat s (cur2 ops prob s)).descent_strategy
        = strat.increase s.descent_strategy ∧
    (retryState prob strat s (cur2 ops prob s)).status = Status.Continue ∧
    (retryState prob strat s (cur2 ops prob s)).committed = false ∧
    (∀ s2 : State V, (runBody ops prob strat s2).2.current.iterations =
        if (runBody ops prob strat s2).2.committed = true
        then s2.current.iterations + 1 else s2.current.iterations) := by
  refine ⟨?_, rfl, rfl, rfl, rfl, rfl, ?_⟩
  · unfold runBody
    simp [hE, hC1, hG, hC2, hD]
  · intro s2
    unfold runBody
    repeat' split
    all_goals first
      | rfl
      | (rename_i h; exact Bool.noConfusion h)
      | (rename_i h; exact absurd rfl h)

set_option maxHeartbeats 1000000 in
/-- C6: on a non-descent-direction retry, the stored previous energy has
already been overwritten with this pass energy before the retry (Solver.cpp
lines 183-184 run before the check at 215), x is unchanged, so the fDelta
the retried pass computes — the cur1 record of the retry state — equals
zero, and the state the retried pass ends in carries that zero fDelta in
its current criteria. -/
theorem C6_fprev_overwritten_on_retry {V : Type} (ops : VOps V)
    (prob : Problem V) (strat : Strategy V) (s : State V)
    (hE : D.isfinite (energyAt prob s) = true)
    (hC1 : checkConvergence s.m_stop (cur1 prob s) = Status.Continue)
    (hG : D.isnan (gradNormAt ops prob s) = false)
    (hC2 : checkConvergence s.m_stop (cur2 ops prob s) = Status.Continue)
    (hD : badDirCond ops prob strat s = true) :
    (runBody ops prob strat s).2.old_energy = energyAt prob s ∧
    (runBody ops prob strat s).2.x = s.x ∧
    (cur1 prob (runBody ops prob strat s).2).fDelta = D.fin 0 ∧
    (runBody ops prob strat (runBody ops prob strat s).2).2.current.fDelta
      = D.fin 0 := by
  have hrb : runBody ops prob strat s
      = (Tag.looped, retryState prob strat s (cur2 ops prob s)) := by
    unfold runBody
    simp [hE, hC1, hG, hC2, hD]
  obtain ⟨q, hq⟩ : ∃ q, energyAt prob s = D.fin q := by
    cases hv : energyAt prob s <;> simp_all [D.isfinite]
  have hfd : D.abs (D.sub (energyAt prob s) (energyAt prob s)) = D.fin 0 := by
    rw [hq]
    simp [D.abs, D.sub, D.add, D.neg]
  rw [hrb]
  refine ⟨rfl, rfl, hfd, ?_⟩
  unfold runBody
  repeat' split
  all_goals first
    | exact hfd
    | (rename_i h; exact absurd hE h)

set_option maxHeartbeats 1000000 in
/-- C2 amended: when a loop pass reaches the gradient stage (finite energy,
first convergence check answers Continue) and the computed gradient norm is
nan, the pass throws with status UserDefined and error NaNEncountered,
leaving x and the iteration counter untouched (Solver.cpp lines 196-202);
the loop turns this into a thrown NanGrad outcome.  Note the source checks
isnan only: an infinite, non-nan gradient norm does not take this path. -/
theorem C2_nan_gradient_fatal {V : Type} (ops : VOps V) (prob : Problem V)
    (strat : Strategy V) (allow : Bool) (s : State V) (fuel : ℕ)
    (hE : D.isfinite (energyAt prob s) = true)
    (hC1 : checkConvergence s.m_stop (cur1 prob s) = Status.Continue)
    (hG : D.isnan (gradNormAt ops prob s) = true) :
    runBody ops prob strat s = (Tag.threwNanGrad, nanGradState prob s) ∧
    (nanGradState prob s).status = Status.UserDefined ∧
    (nanGradState prob s).error_code = ErrorCode.NaNEncountered ∧
    (nanGradState prob s).x = s.x ∧
    (nanGradState prob s).current.iterations = s.current.iterations ∧
    (nanGradState prob s).committed = false ∧
    loop ops prob strat allow (fuel + 1) s
      = Outcome.thrown Err.NanGrad (nanGradState prob s) := by
  have hrb : runBody ops prob strat s
      = (Tag.threwNanGrad, nanGradState prob s) := by
    unfold runBody
    simp [hE, hC1, hG]
  refine ⟨hrb, rfl, rfl, rfl, rfl, rfl, ?_⟩
  simp only [loop]
  rw [hrb]

set_option maxHeartbeats 1000000 in
/-- C1 amended: when a loop pass reaches the line search at strategy level
two (gradient descent) and the line search returns nan, the pass throws
with status UserDefined — but the error code is not assigned on this path
(Solver.cpp lines 258-263 set only the status before throwing), so it
keeps its previous value, which is Success as set by reset unless the stop
hook changed it; x is untouched and the loop turns this into a thrown
LineSearchFailedGD outcome. -/
theorem C1_line_search_failure_gd {V : Type} (ops : VOps V)
    (prob : Problem V) (strat : Strategy V) (allow : Bool) (s : State V)
    (fuel : ℕ)
    (hE : D.isfinite (energyAt prob s) = true)
    (hC1 : checkConvergence s.m_stop (cur1 prob s) = Status.Continue)
    (hG : D.isnan (gradNormAt ops prob s) = false)
    (hC2 : checkConvergence s.m_stop (cur2 ops prob s) = Status.Continue)
    (hD : badDirCond ops prob strat s = false)
    (hDX : D.isnan (ops.norm (dirAt prob strat s)) = false)
    (hC3 : checkConvergence s.m_stop (cur3 ops prob strat s) = Status.Continue)
    (hR : D.isnan (rateAt prob strat s) = true)
    (hL : ¬ s.descent_strategy < 2) :
    runBody ops prob strat s
      = (Tag.threwLineSearch, lsFailState ops prob strat s) ∧
    (lsFailState ops prob strat s).status = Status.UserDefined ∧
    (lsFailState ops prob strat s).error_code = s.error_code ∧
    (lsFailState ops prob strat s).x = s.x ∧
    (lsFailState ops prob strat s).committed = false ∧
    loop ops prob strat allow (fuel + 1) s
      = Outcome.thrown Err.LineSearchFailedGD (lsFailState ops prob strat s) := by
  have hrb : runBody ops prob strat s
      = (Tag.threwLineSearch, lsFailState ops prob strat s) := by
    unfold runBody
    simp [hE, hC1, hG, hC2, hD, hDX, hC3, hR, hL]
  refine ⟨hrb, rfl, rfl, rfl, rfl, ?_⟩
  simp only [loop]
  rw [hrb]

set_option maxHeartbeats 1000000 in
/-- C7 amended: when the callback answers false after a loop pass that
reached the loop condition with status Continue, minimize leaves the loop
and the epilogue returns normally (Solver.cpp lines 300-321): no throw,
the status is still Continue and the error code keeps its value (Success
in any run that never hit a nan path).  When the callback answers false
after a pass that set a different status, it is that status which governs
the exit, and a disallowed IterationLimit still throws. -/
theorem C7_callback_stop {V : Type} (ops : VOps V) (prob : Problem V)
    (strat : Strategy V) (allow : Bool) (s : State V) (fuel : ℕ)
    (htag : (runBody ops prob strat s).1 = Tag.looped)
    (hst : (runBody ops prob strat s).2.status = Status.Continue)
    (hcb : prob.callback (runBody ops prob strat s).2.current
             (runBody ops prob strat s).2.x = false) :
    loop ops prob strat allow (fuel + 1) s
      = Outcome.done { (runBody ops prob strat s).2 with
          info_trace := (runBody ops prob strat s).2.info_trace
            ++ [mkInfo (runBody ops prob strat s).2
                  (prob.value (runBody ops prob strat s).2.x)] } ∧
    (loop ops prob strat allow (fuel + 1) s).st.status = Status.Continue ∧
    (loop ops prob strat allow (fuel + 1) s).st.error_code
      = (runBody ops prob strat s).2.error_code ∧
    (loop ops prob strat allow (fuel + 1) s).errOf = none := by
  have hpair : runBody ops prob strat s
      = (Tag.looped, (runBody ops prob strat s).2) := by
    rw [← htag]
  have hloop : loop ops prob strat allow (fuel + 1) s
      = epilogue prob allow (runBody ops prob strat s).2 := by
    simp only [loop]
    rw [hpair]
    simp [hcb]
  have hep : epilogue prob allow (runBody ops prob strat s).2
      = Outcome.done { (runBody ops prob strat s).2 with
          info_trace := (runBody ops prob strat s).2.info_trace
            ++ [mkInfo (runBody ops prob strat s).2
                  (prob.value (runBody ops prob strat s).2.x)] } := by
    unfold epilogue
    simp [hst]
  rw [hloop, hep]
  refine ⟨rfl, ?_, rfl, rfl⟩
  simpa [Outcome.st] using hst

set_option maxHeartbeats 1000000 in
/-- C9 amended: solver_info is written at the start of minimize (one snapshot
in the initial state, Solver.cpp line 160), once more by every committed
pass (line 293), and once more by the epilogue when the call returns
normally (line 320); but a failing termination throws (lines 179, 200,
262, 309, 311) before any further write, so no snapshot is produced at a
fatal termination — the trace keeps only the snapshots written so far. -/
theorem C9_solver_info_update_points {V : Type} (ops : VOps V) (p : Params)
    (clen : D) (allow : Bool) (prob : Problem V) (strat : Strategy V)
    (t : Times) (lt : LSTimes) (x0 : V) (s : State V) :
    (initState p clen prob strat t lt x0).info_trace
      = [mkInfo (initState p clen prob strat t lt x0) (prob.value x0)] ∧
    ((runBody ops prob strat s).2.committed = false →
        (runBody ops prob strat s).2.info_trace = s.info_trace) ∧
    ((runBody ops prob strat s).2.committed = true →
        (runBody ops prob strat s).2.info_trace = s.info_trace
          ++ [update_solver_info (runBody ops prob strat s).2.status
                (runBody ops prob strat s).2.error_code
                (runBody ops prob strat s).2.current s.times s.ls_times
                (energyAt prob s)]) ∧
    (∀ s2 : State V, epilogue prob allow s = Outcome.done s2 →
        s2.info_trace = s.info_trace ++ [mkInfo s (prob.value s.x)]) ∧
    (∀ e : Err, ∀ s2 : State V, epilogue prob allow s = Outcome.thrown e s2 →
        s2.info_trace = s.info_trace) := by
  refine ⟨rfl, ?_, ?_, ?_, ?_⟩
  · unfold runBody
    repeat' split
    all_goals intro h
    all_goals first
      | rfl
      | exact Bool.noConfusion h
  · unfold runBody
    repeat' split
    all_goals intro h
    all_goals first
      | rfl
      | exact Bool.noConfusion h
  · intro s2 h
    unfold epilogue at h
    split at h
    · exact Outcome.noConfusion h
    · split at h
      · exact Outcome.noConfusion h
      · injection h with h2
        rw [← h2]
  · intro e s2 h
    unfold epilogue at h
    split at h
    · injection h with h1 h2
      rw [← h2]
    · split at h
      · injection h with h1 h2
        rw [← h2]
      · exact Outcome.noConfusion h

/-- C2 counterexample: in cex2run the gradient is plus infinity everywhere —
non-finite, with non-finite norm — yet the call does not terminate with
NaNEncountered: it commits an iteration and returns normally with status
IterationLimit and error Success, because the source tests only isnan on
the gradient norm. -/
theorem C2_counterexample :
    D.isfinite (infGradProb.gradient (D.fin 0)) = false ∧
    D.isnan (oneD.norm (infGradProb.gradient (D.fin 0))) = false ∧
    cex2run.errOf = none ∧
    cex2run.st.status = Status.IterationLimit ∧
    cex2run.st.error_code = ErrorCode.Success ∧
    cex2run.st.current.iterations = 1 :=
  ⟨rfl, rfl, rfl, rfl, rfl, rfl⟩

/-- C2 witness: with a nan gradient the call does throw NanGrad with status
UserDefined and error NaNEncountered, before any commit. -/
theorem C2_witness :
    loop oneD nanGradProb plainStrat true 1 w2s
      = Outcome.thrown Err.NanGrad (nanGradState nanGradProb w2s) ∧
    (nanGradState nanGradProb w2s).error_code = ErrorCode.NaNEncountered ∧
    (nanGradState nanGradProb w2s).current.iterations = 0 :=
  ⟨(C2_nan_gradient_fatal oneD nanGradProb plainStrat true w2s 0
      rfl rfl rfl).2.2.2.2.2.2,
   (C2_nan_gradient_fatal oneD nanGradProb plainStrat true w2s 0
      rfl rfl rfl).2.2.1,
   rfl⟩

/-- C1 counterexample: in cex1run the line search fails at strategy level two
and the call throws, but the final error code is Success, not
LineSearchFailed — the source never assigns LineSearchFailed. -/
theorem C1_counterexample :
    cex1run.errOf = some Err.LineSearchFailedGD ∧
    cex1run.st.status = Status.UserDefined ∧
    cex1run.st.error_code = ErrorCode.Success ∧
    cex1run.st.error_code ≠ ErrorCode.LineSearchFailed := by
  refine ⟨rfl, rfl, rfl, ?_⟩
  decide

/-- C1 witness: a concrete run of the amended statement — the line-search
failure at level two throws LineSearchFailedGD with status UserDefined and
the error code equal to its entry value. -/
theorem C1_witness :
    loop oneD plainProb gdFailStrat true 1 w1s
      = Outcome.thrown Err.LineSearchFailedGD
          (lsFailState oneD plainProb gdFailStrat w1s) ∧
    (lsFailState oneD plainProb gdFailStrat w1s).error_code = w1s.error_code :=
  ⟨(C1_line_search_failure_gd oneD plainProb gdFailStrat true w1s 0
      rfl rfl rfl rfl rfl rfl rfl rfl (by decide)).2.2.2.2.2,
   (C1_line_search_failure_gd oneD plainProb gdFailStrat true w1s 0
      rfl rfl rfl rfl rfl rfl rfl rfl (by decide)).2.2.1⟩

/-- C3 witness: a concrete pass that takes the descent-direction-validation
retry, leaving the iteration counter unchanged. -/
theorem C3_witness :
    runBody oneD infGradProb badDirStrat w3s
      = (Tag.looped,
         retryState infGradProb badDirStrat w3s (cur2 oneD infGradProb w3s)) ∧
    (retryState infGradProb badDirStrat w3s
        (cur2 oneD infGradProb w3s)).current.iterations
      = w3s.current.iterations :=
  ⟨(C3_descent_validation_retry oneD infGradProb badDirStrat w3s
      rfl rfl rfl rfl rfl).1,
   (C3_descent_validation_retry oneD infGradProb badDirStrat w3s
      rfl rfl rfl rfl rfl).2.2.1⟩

/-- C6 witness: on the concrete non-descent retry the stored previous energy
equals this pass energy and the retried pass computes fDelta zero. -/
theorem C6_witness :
    (runBody oneD infGradProb badDirStrat w6s).2.old_energy
      = energyAt infGradProb w6s ∧
    (cur1 infGradProb (runBody oneD infGradProb badDirStrat w6s).2).fDelta
      = D.fin 0 :=
  ⟨(C6_fprev_overwritten_on_retry oneD infGradProb badDirStrat w6s
      rfl rfl rfl rfl rfl).1,
   (C6_fprev_overwritten_on_retry oneD infGradProb badDirStrat w6s
      rfl rfl rfl rfl rfl).2.2.1⟩

/-- C7 counterexample: the callback answers false after the pass, yet the
termination is fatal — the pass hit the iteration limit with
allow_out_of_iterations unset, so minimize throws and the status is
IterationLimit, not Continue. -/
theorem C7_counterexample :
    cbFalseProb.callback
        (runBody oneD cbFalseProb plainStrat
          (st0 cbFalseProb plainStrat 1 (D.fin 0))).2.current
        (runBody oneD cbFalseProb plainStrat
          (st0 cbFalseProb plainStrat 1 (D.fin 0))).2.x = false ∧
    cex7run.errOf = some Err.IterationLimitExceeded ∧
    cex7run.st.status = Status.IterationLimit ∧
    cex7run.st.status ≠ Status.Continue := by
  refine ⟨rfl, rfl, rfl, ?_⟩
  decide

/-- C7 witness: when the callback answers false after a pass whose status is
Continue, the call returns normally with status Continue and no thrown
error. -/
theorem C7_witness :
    (loop oneD cbFalseProb plainStrat true 1 w7s).errOf = none ∧
    (loop oneD cbFalseProb plainStrat true 1 w7s).st.status
      = Status.Continue :=
  ⟨by rw [(C7_callback_stop oneD cbFalseProb plainStrat true w7s 0
       rfl rfl rfl).1]; rfl,
   (C7_callback_stop oneD cbFalseProb plainStrat true w7s 0
       rfl rfl rfl).2.1⟩

/-- C9 counterexample: a run that fails on a nan energy terminates by
throwing; its solver_info trace still holds only the single snapshot
written at the start of minimize, whose status is Continue — no snapshot
was written at the failing termination, which carries status
UserDefined. -/
theorem C9_counterexample :
    cex9run.errOf = some Err.NanEnergy ∧
    cex9run.st.status = Status.UserDefined ∧
    cex9run.st.error_code = ErrorCode.NaNEncountered ∧
    cex9run.st.info_trace.length = 1 ∧
    cex9run.st.info_trace.map (fun r => r.status) = [Status.Continue] :=
  ⟨rfl, rfl, rfl, rfl, rfl⟩

/-- C9 witness: a concrete non-committing pass leaves the solver_info trace
unchanged. -/
theorem C9_witness :
    (runBody oneD nanValueProb plainStrat w9s).2.committed = false ∧
    (runBody oneD nanValueProb plainStrat w9s).2.info_trace = w9s.info_trace :=
  ⟨rfl,
   (C9_solver_info_update_points oneD (nanParams 10) (D.fin 1) true
      nanValueProb plainStrat zeroTimes zeroLSTimes (D.fin 2) w9s).2.1 rfl⟩

/-- C10 witness: a concrete pass that throws in the line search does not
commit and leaves x unchanged. -/
theorem C10_witness :
    (runBody oneD plainProb gdFailStrat w10s).2.committed = false ∧
    (runBody oneD plainProb gdFailStrat w10s).2.x = w10s.x :=
  ⟨rfl,
   (C10_commit_only_mutation oneD plainProb gdFailStrat true w10s).1 rfl⟩
